import Mathlib

/-!
Verification of the shader-bundle loader core of the OpenGL demo.

This file gives a shallow embedding of the core logic of
`src/OpenGL/src/Application.cpp`:

* `ParseShader` — the shader-source splitter (lines 37–65);
* `GLLogCall` — the diagnostic guard polled after every wrapped GL call
  (lines 19–29);
* `CompileShader` / `CreateShaders` — the program builder (lines 67–128).

Strings are modelled by Lean `String` (buffers by `List Char`); the C++
`stringstream ss[2]` array indexed by the `ShaderType` enum is modelled by a
bounds-checked write that returns `none` on an out-of-range index (the C++
code performs undefined behaviour there).  The OpenGL driver, which is not
part of the repository, is a parameter `GLEnv`; the process-wide GL object
table and the program's `std::cout` output are threaded explicitly as a
`GLState`.
-/

/-! ## The shader-source splitter (`ParseShader`, Application.cpp:37-65) -/

/-- `listHasSub pat s` models `s.find(pat) != std::string::npos` on the
underlying character lists: some contiguous run of `s` starts with `pat`. -/
def listHasSub (pat : List Char) : List Char → Bool
  | [] => pat.isEmpty
  | c :: rest => pat.isPrefixOf (c :: rest) || listHasSub pat rest

/-- `containsSubstr s pat` models the C++ test
`s.find(pat) != std::string::npos`. -/
def containsSubstr (s pat : String) : Bool :=
  listHasSub pat.data s.data

/-- The `ShaderType` enum of `ParseShader` (Application.cpp:41-44). -/
inductive ShaderType where
  | NONE
  | VERTEX
  | FRAGMENT
deriving DecidableEq, Repr

/-- The integer value of the enum: `NONE = -1, VERTEX = 0, FRAGMENT = 1`. -/
def ShaderType.toInt : ShaderType → Int
  | .NONE => -1
  | .VERTEX => 0
  | .FRAGMENT => 1

/-- The scan state of `ParseShader`: the two `stringstream`s `ss[0]`, `ss[1]`
and the current section `type` (Application.cpp:46-48). -/
structure ParseState where
  ss0 : List Char
  ss1 : List Char
  type : ShaderType
deriving DecidableEq, Repr

/-- The initial scan state: two empty buffers, section `NONE`. -/
def initState : ParseState := ⟨[], [], ShaderType.NONE⟩

/-- `bufWrite st idx line` models `ss[idx] << line << "\n"`
(Application.cpp:60).  The array `ss` has exactly two elements, so an index
outside `{0, 1}` is an out-of-bounds access — undefined behaviour in C++ —
modelled as `none`. -/
def bufWrite (st : ParseState) (idx : Int) (line : String) : Option ParseState :=
  if idx = 0 then some { st with ss0 := st.ss0 ++ line.data ++ ['\n'] }
  else if idx = 1 then some { st with ss1 := st.ss1 ++ line.data ++ ['\n'] }
  else none

/-- One iteration of the `while (getline(stream, line))` body
(Application.cpp:49-62). -/
def parseLine (st : ParseState) (line : String) : Option ParseState :=
  if containsSubstr line "#shader" then
    if containsSubstr line "vertex" then
      some { st with type := ShaderType.VERTEX }
    else if containsSubstr line "fragment" then
      some { st with type := ShaderType.FRAGMENT }
    else
      some st
  else
    bufWrite st st.type.toInt line

/-- The whole `while` loop of `ParseShader`, over the list of lines that
`getline` yields. -/
def parseLines : ParseState → List String → Option ParseState
  | st, [] => some st
  | st, l :: ls =>
    match parseLine st l with
    | none => none
    | some st' => parseLines st' ls

/-- The lines `std::getline` yields from a character stream: a line per `'\n'`,
plus a final unterminated line when the stream does not end in `'\n'`
(at end-of-file `getline` succeeds exactly when it has read at least one
character). -/
def getLinesAux (acc : List Char) : List Char → List String
  | [] => if acc.isEmpty then [] else [String.mk acc.reverse]
  | c :: rest =>
    if c = '\n' then String.mk acc.reverse :: getLinesAux [] rest
    else getLinesAux (c :: acc) rest

/-- The lines `getline` yields from the whole file content. -/
def getLines (content : String) : List String :=
  getLinesAux [] content.data

/-- The `ShaderProgramSource` struct (Application.cpp:31-35). -/
structure ShaderProgramSource where
  VertexSource : String
  FragmentSource : String
deriving DecidableEq, Repr

/-- `ParseShader` (Application.cpp:37-65).  The input is `none` when the file
cannot be opened or read — `std::ifstream` sets the fail state and the very
first `getline` fails, so the loop body never runs — and `some content`
otherwise.  The result is `none` exactly when the scan performs the
out-of-bounds write `ss[-1]` (undefined behaviour), and otherwise
`{ ss[0].str(), ss[1].str() }`. -/
def ParseShader (file : Option String) : Option ShaderProgramSource :=
  let lines := match file with
    | none => []
    | some content => getLines content
  (parseLines initState lines).map fun st => ⟨String.mk st.ss0, String.mk st.ss1⟩

/-- `concatNL ls` is the character stream obtained by writing each line of
`ls` followed by one `'\n'` — the shape of a `stringstream` buffer built by
`ss[i] << line << "\n"`. -/
def concatNL : List String → List Char
  | [] => []
  | l :: ls => l.data ++ '\n' :: concatNL ls

/-! ## The diagnostic guard (`GLLogCall`, Application.cpp:19-29)

`glGetError` pops the next pending error code from the GL error queue, or
returns `GL_NO_ERROR = 0` when the queue is empty.  The queue at the moment
the guard runs is an explicit argument: a list of the pending nonzero error
codes, in the order the API yields them. -/

/-- One diagnostic line printed by `GLLogCall`
(`[OpenGL Error] (error): function file:line`). -/
structure DiagnosticEvent where
  errorCode : Nat
  callSite : String
  sourceFile : String
  sourceLine : Nat
deriving DecidableEq, Repr

/-- One `glGetError()` call on the pending-error queue: pops the front code,
or returns `0` (GL_NO_ERROR) on an empty queue. -/
def glGetErrorStep : List Nat → Nat × List Nat
  | [] => (0, [])
  | e :: rest => (e, rest)

/-- `GLLogCall(function, file, line)` (Application.cpp:19-29), run against the
queue of errors pending after the wrapped call.  The `while` loop tests
`error = glGetError()`; when the code is nonzero the body prints one
diagnostic and immediately executes `return false`, so no second iteration
ever runs; when it is zero the loop exits and the function returns `true`.
The result is the list of printed diagnostics and the returned boolean. -/
def GLLogCall (callSite sourceFile : String) (sourceLine : Nat)
    (queue : List Nat) : List DiagnosticEvent × Bool :=
  let (error, _) := glGetErrorStep queue
  if error ≠ 0 then
    ([⟨error, callSite, sourceFile, sourceLine⟩], false)
  else
    ([], true)

/-! ## The program builder (`CompileShader` / `CreateShaders`,
Application.cpp:67-128)

The OpenGL driver is not part of the repository; its observable behaviour is
a parameter `GLEnv`: whether a given source text compiles for each stage
kind, the info log attached to a source, and whether a program links given
which stage kinds are attached.  The driver-side object table (live shader
and program ids, their types and sources) together with everything the
program prints on `std::cout` is the explicit state `GLState`. -/

def GL_FALSE : Nat := 0
def GL_TRUE : Nat := 1
def GL_FRAGMENT_SHADER : Nat := 0x8B30
def GL_VERTEX_SHADER : Nat := 0x8B31

/-- The driver's behaviour, external to the repository. -/
structure GLEnv where
  /-- does this source compile as a vertex shader? -/
  vertexCompileOk : String → Bool
  /-- does this source compile as a fragment shader? -/
  fragmentCompileOk : String → Bool
  /-- the info log the driver attaches to a shader with this source -/
  shaderInfoLog : String → String
  /-- does the program link, given whether a vertex stage and whether a
  fragment stage is attached? -/
  linkOk : Bool → Bool → Bool
  /-- the info log the driver attaches to a program that failed to link -/
  programInfoLog : String
  /-- does `glValidateProgram` set `GL_VALIDATE_STATUS` to true? -/
  validateOk : Bool

/-- The driver-side object table plus the demo's `std::cout` transcript. -/
structure GLState where
  /-- next fresh shader id (GL ids are nonzero, so they start at 1) -/
  nextShader : Nat
  /-- next fresh program id -/
  nextProgram : Nat
  /-- shader ids created and not yet deleted -/
  liveShaders : List Nat
  /-- program ids created and not yet deleted -/
  livePrograms : List Nat
  /-- id ↦ shader type, set by `glCreateShader` -/
  shaderTypes : List (Nat × Nat)
  /-- id ↦ source text, set by `glShaderSource` -/
  shaderSources : List (Nat × String)
  /-- shader ids on which `glCompileShader` was invoked -/
  compileCalled : List Nat
  /-- (program, shader) attachments made by `glAttachShader` -/
  attached : List (Nat × Nat)
  /-- program ids on which `glValidateProgram` was invoked -/
  validated : List Nat
  /-- lines printed on `std::cout`, oldest first -/
  output : List String
deriving Repr

/-- The state before `CreateShaders` runs: empty object table, no output. -/
def initGL : GLState := ⟨1, 1, [], [], [], [], [], [], [], []⟩

/-- `glCreateShader(type)`: returns a fresh nonzero shader id. -/
def glCreateShader (shaderKind : Nat) (st : GLState) : Nat × GLState :=
  (st.nextShader,
    { st with
      nextShader := st.nextShader + 1
      liveShaders := st.nextShader :: st.liveShaders
      shaderTypes := (st.nextShader, shaderKind) :: st.shaderTypes })

/-- `glShaderSource(id, 1, &src, nullptr)`: stores the source for `id`. -/
def glShaderSource (id : Nat) (src : String) (st : GLState) : GLState :=
  { st with shaderSources := (id, src) :: st.shaderSources }

/-- `glCompileShader(id)`: hands the stored source to the driver's compiler. -/
def glCompileShader (id : Nat) (st : GLState) : GLState :=
  { st with compileCalled := id :: st.compileCalled }

/-- `glDeleteShader(id)`: removes `id` from the live shaders; deleting id `0`
or an unknown id is a no-op. -/
def glDeleteShader (id : Nat) (st : GLState) : GLState :=
  { st with liveShaders := st.liveShaders.filter (fun s => s ≠ id) }

/-- `glCreateProgram()`: returns a fresh nonzero program id. -/
def glCreateProgram (st : GLState) : Nat × GLState :=
  (st.nextProgram,
    { st with
      nextProgram := st.nextProgram + 1
      livePrograms := st.nextProgram :: st.livePrograms })

/-- `glAttachShader(program, shader)`: attaching shader `0` raises
`GL_INVALID_VALUE` and attaches nothing; otherwise the attachment is
recorded. -/
def glAttachShader (program shader : Nat) (st : GLState) : GLState :=
  if shader = 0 then st
  else { st with attached := (program, shader) :: st.attached }

/-- `glDeleteProgram(id)`. -/
def glDeleteProgram (id : Nat) (st : GLState) : GLState :=
  { st with livePrograms := st.livePrograms.filter (fun p => p ≠ id) }

/-- `glValidateProgram(program)`: asks the driver to validate; the demo never
reads the resulting `GL_VALIDATE_STATUS` or the program info log, so the
only trace is that the call happened. -/
def glValidateProgram (program : Nat) (st : GLState) : GLState :=
  { st with validated := program :: st.validated }

/-- the driver's compile verdict for a shader object, from its recorded type
and source (`GL_TRUE` / `GL_FALSE`). -/
def compileStatus (env : GLEnv) (st : GLState) (id : Nat) : Nat :=
  match st.shaderTypes.lookup id, st.shaderSources.lookup id with
  | some k, some src =>
    if (if k = GL_VERTEX_SHADER then env.vertexCompileOk src
        else env.fragmentCompileOk src) then GL_TRUE else GL_FALSE
  | _, _ => GL_FALSE

/-- `glGetShaderiv(id, GL_INFO_LOG_LENGTH, &length)`: the log length
including the terminating null character. -/
def shaderInfoLogLength (env : GLEnv) (st : GLState) (id : Nat) : Nat :=
  match st.shaderSources.lookup id with
  | some src => (env.shaderInfoLog src).data.length + 1
  | none => 0

/-- `glGetShaderInfoLog(id, maxLength, &length, message)`: writes at most
`maxLength - 1` characters of the log plus a terminating null. -/
def getShaderInfoLog (env : GLEnv) (st : GLState) (id maxLength : Nat) : String :=
  match st.shaderSources.lookup id with
  | some src => String.mk ((env.shaderInfoLog src).data.take (maxLength - 1))
  | none => ""

/-- print one line on `std::cout`. -/
def coutLine (s : String) (st : GLState) : GLState :=
  { st with output := st.output ++ [s] }

/-- `CompileShader(type, source)` (Application.cpp:67-95): create a shader
object, hand it the source, compile it; on compile failure fetch the info
log by the length-then-fetch pair, print the stage kind and the log, delete
the shader object and return `0`; on success return the id. -/
def CompileShader (env : GLEnv) (shaderKind : Nat) (source : String)
    (st : GLState) : Nat × GLState :=
  let (id, st) := glCreateShader shaderKind st
  let st := glShaderSource id source st
  let st := glCompileShader id st
  let result := compileStatus env st id
  if result = GL_FALSE then
    let length := shaderInfoLogLength env st id
    let message := getShaderInfoLog env st id length
    let st := coutLine ("Failed to compile " ++
      (if shaderKind = GL_VERTEX_SHADER then "vertex" else "fragment") ++
      " shader!") st
    let st := coutLine ("Message: " ++ message) st
    let st := glDeleteShader id st
    (0, st)
  else
    (id, st)

/-- does `program` have a stage of kind `k` attached? -/
def hasAttachedOfKind (st : GLState) (program k : Nat) : Bool :=
  st.attached.any fun p => p.1 = program && st.shaderTypes.lookup p.2 == some k

/-- `glGetProgramiv(program, GL_LINK_STATUS, &result)`: the driver's link
verdict, from which stage kinds are attached. -/
def linkStatus (env : GLEnv) (st : GLState) (program : Nat) : Nat :=
  if env.linkOk (hasAttachedOfKind st program GL_VERTEX_SHADER)
      (hasAttachedOfKind st program GL_FRAGMENT_SHADER) then GL_TRUE
  else GL_FALSE

/-- `CreateShaders(vertexShader, fragmentShader)` (Application.cpp:97-128):
create a program, compile both stages, attach both results, link; on link
failure fetch and print the program log, delete the program and return `0`;
on success validate the program, delete both stage ids and return the
program id. -/
def CreateShaders (env : GLEnv) (vertexShader fragmentShader : String)
    (st : GLState) : Nat × GLState :=
  let (program, st) := glCreateProgram st
  let (vs, st) := CompileShader env GL_VERTEX_SHADER vertexShader st
  let (fs, st) := CompileShader env GL_FRAGMENT_SHADER fragmentShader st
  let st := glAttachShader program vs st
  let st := glAttachShader program fs st
  let result := linkStatus env st program
  if result = GL_FALSE then
    let length := env.programInfoLog.data.length + 1
    let message := String.mk (env.programInfoLog.data.take (length - 1))
    let st := coutLine "Failed to link program!" st
    let st := coutLine ("Message: " ++ message) st
    let st := glDeleteProgram program st
    (0, st)
  else
    let st := glValidateProgram program st
    let st := glDeleteShader vs st
    let st := glDeleteShader fs st
    (program, st)

/-! ## Concrete driver environments used by witnesses and counterexamples -/

/-- a driver for which both stages compile but the program fails to link -/
def envLinkFail : GLEnv :=
  ⟨fun _ => true, fun _ => true, fun _ => "", fun _ _ => false, "link log", true⟩

/-- a driver for which everything compiles, a program links exactly when both
stage kinds are attached, and validation fails -/
def envValidateFail : GLEnv :=
  ⟨fun _ => true, fun _ => true, fun _ => "", fun a b => a && b, "", false⟩

/-- a driver for which vertex sources never compile, fragment sources always
do, and a program links exactly when both stage kinds are attached -/
def envVertexFail : GLEnv :=
  ⟨fun _ => false, fun _ => true, fun _ => "0(1) : error", fun a b => a && b,
    "no vertex stage", true⟩

/-! ## Helper lemmas about the splitter -/

/-- On a line containing `#shader`, the loop body only switches the section
(vertex tested first, then fragment, else unchanged) and copies the line into
neither buffer. -/
theorem parseLine_marker (st : ParseState) (l : String)
    (hm : containsSubstr l "#shader" = true) :
    parseLine st l = some { st with type :=
      (if containsSubstr l "vertex" then ShaderType.VERTEX
       else if containsSubstr l "fragment" then ShaderType.FRAGMENT
       else st.type) } := by
  cases hv : containsSubstr l "vertex" <;> cases hf : containsSubstr l "fragment" <;>
    simp [parseLine, hm, hv, hf]

/-- Structure of a successful scan: each buffer grows by exactly the content
lines written while its section was active, each with one trailing newline,
and together the two buffers hold a permutation of the non-marker lines. -/
theorem parseLines_content (lines : List String) :
    ∀ st st' : ParseState, parseLines st lines = some st' →
    ∃ v fr : List String,
      st'.ss0 = st.ss0 ++ concatNL v ∧
      st'.ss1 = st.ss1 ++ concatNL fr ∧
      (v ++ fr).Perm (lines.filter fun l => !containsSubstr l "#shader") := by
  induction lines with
  | nil =>
    intro st st' h
    simp [parseLines] at h
    exact ⟨[], [], by simp [concatNL, h], by simp [concatNL, h], by simp⟩
  | cons l ls ih =>
    intro st st' h
    rw [parseLines] at h
    cases hpl : parseLine st l with
    | none => rw [hpl] at h; cases h
    | some st₂ =>
      rw [hpl] at h
      cases hm : containsSubstr l "#shader" with
      | true =>
        rw [parseLine_marker st l hm] at hpl
        have hst₂ : st₂.ss0 = st.ss0 ∧ st₂.ss1 = st.ss1 := by
          cases hpl; exact ⟨rfl, rfl⟩
        obtain ⟨v, fr, h0, h1, hp⟩ := ih st₂ st' h
        refine ⟨v, fr, ?_, ?_, ?_⟩
        · rw [h0, hst₂.1]
        · rw [h1, hst₂.2]
        · simpa [hm] using hp
      | false =>
        rw [parseLine, hm] at hpl
        simp only [Bool.false_eq_true, if_false] at hpl
        cases ht : st.type with
        | NONE => rw [ht] at hpl; simp [bufWrite, ShaderType.toInt] at hpl
        | VERTEX =>
          rw [ht] at hpl
          simp only [bufWrite, ShaderType.toInt, if_pos rfl] at hpl
          obtain ⟨v, fr, h0, h1, hp⟩ := ih st₂ st' h
          cases hpl
          refine ⟨l :: v, fr, ?_, ?_, ?_⟩
          · rw [h0]; simp [concatNL]
          · rw [h1]
          · simpa [hm] using hp.cons l
        | FRAGMENT =>
          rw [ht] at hpl
          simp only [bufWrite, ShaderType.toInt] at hpl
          norm_num at hpl
          obtain ⟨v, fr, h0, h1, hp⟩ := ih st₂ st' h
          cases hpl
          refine ⟨v, l :: fr, ?_, ?_, ?_⟩
          · rw [h0]
          · rw [h1]; simp [concatNL]
          · refine List.perm_middle.trans ?_
            simpa [hm] using hp.cons l

/-- A buffer of newline-terminated lines is empty or ends in `'\n'`. -/
theorem concatNL_ends (v : List String) :
    concatNL v = [] ∨ ∃ l : List Char, concatNL v = l ++ ['\n'] := by
  induction v with
  | nil => exact Or.inl rfl
  | cons l ls ih =>
    right
    cases ih with
    | inl h => exact ⟨l.data, by simp [concatNL, h]⟩
    | inr h =>
      obtain ⟨t, ht⟩ := h
      exact ⟨l.data ++ '\n' :: t, by simp [concatNL, ht]⟩

/-- Structure eta for `String`: rebuilding a string from its characters is
the identity. -/
theorem stringMk_data (s : String) : String.mk s.data = s := rfl

/-- String concatenation is list concatenation of the character data. -/
theorem stringMk_append (a b : List Char) :
    String.mk a ++ String.mk b = String.mk (a ++ b) := rfl

/-- Taking a string's length of characters from its data takes all of it. -/
theorem stringTake_length (s : String) : s.data.take s.length = s.data := by
  cases s with
  | mk data => simp [String.length]

/-- `concatNL` distributes over appending line lists. -/
theorem concatNL_append (v w : List String) :
    concatNL (v ++ w) = concatNL v ++ concatNL w := by
  induction v with
  | nil => simp [concatNL]
  | cons l ls ih => simp [concatNL, ih]

/-- Lines yielded by `getline` never contain a newline character. -/
theorem getLinesAux_no_newline (s : List Char) :
    ∀ acc, '\n' ∉ acc → ∀ l ∈ getLinesAux acc s, '\n' ∉ l.data := by
  induction s with
  | nil =>
    intro acc hacc l hl
    cases acc with
    | nil => simp [getLinesAux] at hl
    | cons a as =>
      simp only [getLinesAux, List.isEmpty_cons, Bool.false_eq_true, if_false,
        List.mem_singleton] at hl
      subst hl
      intro hmem
      exact hacc (List.mem_reverse.mp hmem)
  | cons c rest ih =>
    intro acc hacc l hl
    by_cases hc : c = '\n'
    · rw [getLinesAux, if_pos hc] at hl
      rcases List.mem_cons.mp hl with hl | hl
      · subst hl
        intro hmem
        exact hacc (List.mem_reverse.mp hmem)
      · exact ih [] (by simp) l hl
    · rw [getLinesAux, if_neg hc] at hl
      refine ih (c :: acc) ?_ l hl
      intro hmem
      rcases List.mem_cons.mp hmem with hmem | hmem
      · exact hc hmem.symm
      · exact hacc hmem

/-- Lines of a file never contain a newline character. -/
theorem getLines_no_newline (content : String) :
    ∀ l ∈ getLines content, '\n' ∉ l.data :=
  getLinesAux_no_newline content.data [] (by simp)

/-- Scanning a newline-free chunk just accumulates its characters. -/
theorem getLinesAux_chunk (w : List Char) :
    ∀ acc s, '\n' ∉ w → getLinesAux acc (w ++ s) = getLinesAux (w.reverse ++ acc) s := by
  induction w with
  | nil => intro acc s _; simp
  | cons c w' ih =>
    intro acc s hw
    have hc : ¬ c = '\n' := fun h => hw (by simp [h])
    rw [List.cons_append, getLinesAux, if_neg hc,
      ih (c :: acc) s (fun h => hw (List.mem_cons_of_mem c h))]
    simp [List.reverse_cons, List.append_assoc]

/-- `getline` is a left inverse of joining newline-free lines with
newlines. -/
theorem getLines_concatNL (vs : List String) (h : ∀ l ∈ vs, '\n' ∉ l.data) :
    getLines (String.mk (concatNL vs)) = vs := by
  show getLinesAux [] (concatNL vs) = vs
  induction vs with
  | nil => simp [concatNL, getLinesAux]
  | cons l ls ih =>
    rw [concatNL, getLinesAux_chunk l.data [] ('\n' :: concatNL ls) (h l (by simp))]
    rw [getLinesAux, if_pos rfl]
    rw [ih (fun x hx => h x (List.mem_cons_of_mem l hx))]
    simp [stringMk_data]

/-! ## Claims about the splitter -/

/-- C1: the claim says a content line seen in the `NONE` section state is
discarded without error, a zero-marker file yields two empty strings, and
the scan never performs an out-of-range buffer access in that state.  The
code instead executes `ss[(int)ShaderType::NONE]`, i.e. `ss[-1]`, an
out-of-bounds access (undefined behaviour): the loop body fails on the very
first content line seen before any marker, and a zero-marker non-empty file
never reaches the `return` with two empty strings. -/
theorem c1_none_state_out_of_bounds :
    parseLine initState "A" = bufWrite initState (-1) "A" ∧
    bufWrite initState (-1) "A" = none ∧
    ParseShader (some "A\n") = none ∧
    ParseShader (some "A\nB\n") = none := by
  refine ⟨rfl, by decide, by decide, by decide⟩

/-- C4 counterexample: the claim says a file that cannot be opened or read
makes the splitter fail rather than return a `ShaderProgramSource`; on the
code, the failed stream just makes `getline` fail immediately and the
function returns normally. -/
theorem c4_counterexample : ¬ ParseShader none = none := by decide

/-- C4 amended: for a path naming a file that cannot be opened or read,
`ParseShader` does not fail: the `getline` loop body never runs and it
returns a `ShaderProgramSource` holding two empty strings. -/
theorem c4_unreadable_file_returns_empty_bundle :
    ParseShader none = some ⟨"", ""⟩ := by decide

/-- C7: splitting the four-line file `#shader vertex` / `A` /
`#shader fragment` / `B` yields vertex text `"A\n"` and fragment text
`"B\n"`, with the marker lines copied into neither output. -/
theorem c7_example_file :
    ParseShader (some "#shader vertex\nA\n#shader fragment\nB\n") =
      some ⟨"A\n", "B\n"⟩ := by decide

/-- C9: on a line containing `#shader`, the scan switches the section to
vertex whenever `vertex` occurs on that line (even if `fragment` also
occurs), else to fragment whenever `fragment` occurs, else leaves the
section unchanged; in all three cases the buffers receive nothing. -/
theorem c9_marker_line_dispatch (st : ParseState) (line : String)
    (hm : containsSubstr line "#shader" = true) :
    parseLine st line = some { st with type :=
      (if containsSubstr line "vertex" then ShaderType.VERTEX
       else if containsSubstr line "fragment" then ShaderType.FRAGMENT
       else st.type) } :=
  parseLine_marker st line hm

/-- C9 witness: a marker line carrying both keywords switches to vertex
(vertex is tested first) and writes to neither buffer. -/
theorem c9_marker_line_dispatch_witness :
    parseLine ⟨"a".data, "b".data, ShaderType.NONE⟩ "#shader vertex fragment" =
      some ⟨"a".data, "b".data, ShaderType.VERTEX⟩ := by
  rw [c9_marker_line_dispatch ⟨"a".data, "b".data, ShaderType.NONE⟩
    "#shader vertex fragment" (by decide)]
  decide

/-- C8: for a well-formed bundle file carrying the vertex marker and the
fragment marker exactly once, the lines of the re-concatenated output texts
are a permutation of the non-marker lines of the input file. -/
theorem c8_split_reconcat (content : String) (b : ShaderProgramSource)
    (hv : ((getLines content).countP fun l =>
      containsSubstr l "#shader" && containsSubstr l "vertex") = 1)
    (hf : ((getLines content).countP fun l =>
      containsSubstr l "#shader" && containsSubstr l "fragment") = 1)
    (hp : ParseShader (some content) = some b) :
    (getLines (b.VertexSource ++ b.FragmentSource)).Perm
      ((getLines content).filter fun l => !containsSubstr l "#shader") := by
  have hp' : (parseLines initState (getLines content)).map
      (fun st => (⟨String.mk st.ss0, String.mk st.ss1⟩ : ShaderProgramSource)) = some b := hp
  cases hps : parseLines initState (getLines content) with
  | none => rw [hps] at hp'; cases hp'
  | some st' =>
    rw [hps] at hp'
    have hb : b = ⟨String.mk st'.ss0, String.mk st'.ss1⟩ :=
      (Option.some.inj hp').symm
    obtain ⟨v, fr, h0, h1, hperm⟩ :=
      parseLines_content (getLines content) initState st' hps
    simp only [initState, List.nil_append] at h0 h1
    have hnl : ∀ l ∈ v ++ fr, '\n' ∉ l.data := by
      intro l hl
      exact getLines_no_newline content l
        (List.mem_of_mem_filter (hperm.mem_iff.mp hl))
    rw [hb]
    show (getLines (String.mk st'.ss0 ++ String.mk st'.ss1)).Perm _
    rw [h0, h1, stringMk_append, ← concatNL_append, getLines_concatNL (v ++ fr) hnl]
    exact hperm

/-- C8 witness: the round trip on the spec's four-line example file. -/
theorem c8_split_reconcat_witness :
    (getLines ("A\n" ++ "B\n")).Perm
      ((getLines "#shader vertex\nA\n#shader fragment\nB\n").filter
        fun l => !containsSubstr l "#shader") :=
  c8_split_reconcat "#shader vertex\nA\n#shader fragment\nB\n" ⟨"A\n", "B\n"⟩
    (by decide) (by decide) (by decide)

/-- C10: every string in a returned `ShaderProgramSource` is either empty or
ends with a newline, because each content line is appended together with
exactly one `'\n'` — including a final input line that had no trailing
newline, which gains one. -/
theorem c10_outputs_newline_terminated (content : String) (b : ShaderProgramSource)
    (hp : ParseShader (some content) = some b) :
    (b.VertexSource.data = [] ∨ b.VertexSource.data.getLast? = some '\n') ∧
    (b.FragmentSource.data = [] ∨ b.FragmentSource.data.getLast? = some '\n') := by
  have hp' : (parseLines initState (getLines content)).map
      (fun st => (⟨String.mk st.ss0, String.mk st.ss1⟩ : ShaderProgramSource)) = some b := hp
  cases hps : parseLines initState (getLines content) with
  | none => rw [hps] at hp'; cases hp'
  | some st' =>
    rw [hps] at hp'
    have hb : b = ⟨String.mk st'.ss0, String.mk st'.ss1⟩ :=
      (Option.some.inj hp').symm
    obtain ⟨v, fr, h0, h1, _⟩ :=
      parseLines_content (getLines content) initState st' hps
    simp only [initState, List.nil_append] at h0 h1
    subst hb
    constructor
    · show st'.ss0 = [] ∨ st'.ss0.getLast? = some '\n'
      rw [h0]
      rcases concatNL_ends v with h | ⟨l, hl⟩
      · exact Or.inl h
      · exact Or.inr (by rw [hl]; exact List.getLast?_concat l)
    · show st'.ss1 = [] ∨ st'.ss1.getLast? = some '\n'
      rw [h1]
      rcases concatNL_ends fr with h | ⟨l, hl⟩
      · exact Or.inl h
      · exact Or.inr (by rw [hl]; exact List.getLast?_concat l)

/-- C10 witness: a final line with no trailing newline still comes out
newline-terminated. -/
theorem c10_outputs_newline_terminated_witness :
    ("A\n".data = [] ∨ "A\n".data.getLast? = some '\n') ∧
    ("".data = [] ∨ "".data.getLast? = some '\n') :=
  c10_outputs_newline_terminated "#shader vertex\nA" ⟨"A\n", ""⟩ (by decide)

/-! ## Claims about the diagnostic guard -/

/-- C2 counterexample: wrapped around a call that queued the two distinct
error codes 1280 and 1281, the guard reports one diagnostic event, not two:
the loop body executes `return false` on its first iteration. -/
theorem c2_counterexample :
    ¬ (GLLogCall "glDrawElements(GL_TRIANGLES, 6, GL_UNSIGNED_INT, nullptr)"
        "Application.cpp" 241 [1280, 1281]).1.length = 2 := by decide

/-- C2 amended: after the wrapped call the guard polls the error flag; if
the first poll yields a nonzero code it reports exactly one diagnostic
event — for that first code, tagged with the call text, source file and
line — and returns `false` immediately, leaving any further queued codes
unreported; on an empty queue it reports zero events and returns `true`. -/
theorem c2_first_error_only (callSite sourceFile : String) (sourceLine : Nat)
    (e : Nat) (rest : List Nat) (he : e ≠ 0) :
    GLLogCall callSite sourceFile sourceLine (e :: rest) =
      ([⟨e, callSite, sourceFile, sourceLine⟩], false) ∧
    GLLogCall callSite sourceFile sourceLine [] = ([], true) := by
  constructor
  · simp [GLLogCall, glGetErrorStep, he]
  · simp [GLLogCall, glGetErrorStep]

/-- C2 witness: the amended behaviour at a concrete queue of two codes and
at the empty queue. -/
theorem c2_first_error_only_witness :
    GLLogCall "glFoo()" "Application.cpp" 10 [1280, 1281] =
      ([⟨1280, "glFoo()", "Application.cpp", 10⟩], false) ∧
    GLLogCall "glFoo()" "Application.cpp" 10 [] = ([], true) :=
  c2_first_error_only "glFoo()" "Application.cpp" 10 1280 [1281] (by decide)

/-! ## Claims about the program builder -/

/-- C3 counterexample: with a driver that compiles both stages but fails the
link, `CreateShaders` returns the invalid sentinel with both stage handles
(shader ids 1 and 2) still live — the link-failure path returns before the
two `glDeleteShader` calls are reached. -/
theorem c3_counterexample :
    (CreateShaders envLinkFail "v" "f" initGL).1 = 0 ∧
    (CreateShaders envLinkFail "v" "f" initGL).2.liveShaders = [2, 1] := by
  decide

set_option maxHeartbeats 1600000 in
/-- C3 amended: on a successful link both stage handles are deleted after
linking, but on a failed link `CreateShaders` returns the sentinel without
deleting them: every stage whose compilation succeeded is still live
(stages whose compilation failed were already deleted inside
`CompileShader`). -/
theorem c3_stage_handles (env : GLEnv) (v f : String) :
    (env.linkOk (env.vertexCompileOk v) (env.fragmentCompileOk f) = true →
      (CreateShaders env v f initGL).1 = 1 ∧
      (CreateShaders env v f initGL).2.liveShaders = []) ∧
    (env.linkOk (env.vertexCompileOk v) (env.fragmentCompileOk f) = false →
      (CreateShaders env v f initGL).1 = 0 ∧
      (CreateShaders env v f initGL).2.liveShaders =
        (if env.fragmentCompileOk f then [2] else []) ++
        (if env.vertexCompileOk v then [1] else [])) := by
  cases hv : env.vertexCompileOk v <;> cases hf : env.fragmentCompileOk f <;>
    cases hl : env.linkOk (env.vertexCompileOk v) (env.fragmentCompileOk f) <;>
      simp_all [CreateShaders, CompileShader, glCreateProgram, glCreateShader,
        glShaderSource, glCompileShader, glDeleteShader, glAttachShader,
        glDeleteProgram, glValidateProgram, compileStatus, shaderInfoLogLength,
        getShaderInfoLog, coutLine, hasAttachedOfKind, linkStatus, initGL,
        GL_TRUE, GL_FALSE, GL_VERTEX_SHADER, GL_FRAGMENT_SHADER, List.lookup]

/-- C3 witness: with a driver that links whenever both stage kinds are
attached, the success path deletes both stage handles. -/
theorem c3_stage_handles_witness :
    (CreateShaders envValidateFail "v" "f" initGL).1 = 1 ∧
    (CreateShaders envValidateFail "v" "f" initGL).2.liveShaders = [] :=
  (c3_stage_handles envValidateFail "v" "f").1 (by decide)

set_option maxHeartbeats 1600000 in
/-- C5: for a vertex source that fails to compile (under a driver that
refuses to link a program with no vertex stage attached), `CreateShaders`
prints the failure tagged `vertex` together with the full info log obtained
by the length-then-fetch pair, deletes the failed stage handle (id 1),
yields the null stage id 0 for it, still hands the fragment stage (id 2,
with its own source) to the compiler — no short-circuit — and returns the
invalid sentinel 0. -/
theorem c5_vertex_compile_failure (env : GLEnv) (v f : String)
    (hv : env.vertexCompileOk v = false)
    (hlink : env.linkOk false (env.fragmentCompileOk f) = false) :
    (CompileShader env GL_VERTEX_SHADER v (glCreateProgram initGL).2).1 = 0 ∧
    (CreateShaders env v f initGL).1 = 0 ∧
    "Failed to compile vertex shader!" ∈ (CreateShaders env v f initGL).2.output ∧
    ("Message: " ++ env.shaderInfoLog v) ∈ (CreateShaders env v f initGL).2.output ∧
    1 ∉ (CreateShaders env v f initGL).2.liveShaders ∧
    2 ∈ (CreateShaders env v f initGL).2.compileCalled ∧
    (CreateShaders env v f initGL).2.shaderTypes.lookup 2 = some GL_FRAGMENT_SHADER ∧
    (CreateShaders env v f initGL).2.shaderSources.lookup 2 = some f := by
  cases hf : env.fragmentCompileOk f <;>
    simp_all [CreateShaders, CompileShader, glCreateProgram, glCreateShader,
      glShaderSource, glCompileShader, glDeleteShader, glAttachShader,
      glDeleteProgram, glValidateProgram, compileStatus, shaderInfoLogLength,
      getShaderInfoLog, coutLine, hasAttachedOfKind, linkStatus, initGL,
      GL_TRUE, GL_FALSE, GL_VERTEX_SHADER, GL_FRAGMENT_SHADER, List.lookup,
      stringMk_data, stringTake_length]

/-- C5 witness: the concrete driver `envVertexFail` rejecting a vertex
source. -/
theorem c5_vertex_compile_failure_witness :
    (CompileShader envVertexFail GL_VERTEX_SHADER "bad" (glCreateProgram initGL).2).1 = 0 ∧
    (CreateShaders envVertexFail "bad" "good" initGL).1 = 0 ∧
    "Failed to compile vertex shader!" ∈ (CreateShaders envVertexFail "bad" "good" initGL).2.output ∧
    ("Message: " ++ envVertexFail.shaderInfoLog "bad") ∈ (CreateShaders envVertexFail "bad" "good" initGL).2.output ∧
    1 ∉ (CreateShaders envVertexFail "bad" "good" initGL).2.liveShaders ∧
    2 ∈ (CreateShaders envVertexFail "bad" "good" initGL).2.compileCalled ∧
    (CreateShaders envVertexFail "bad" "good" initGL).2.shaderTypes.lookup 2 = some GL_FRAGMENT_SHADER ∧
    (CreateShaders envVertexFail "bad" "good" initGL).2.shaderSources.lookup 2 = some "good" :=
  c5_vertex_compile_failure envVertexFail "bad" "good" (by decide) (by decide)

/-- C6 counterexample: with a driver whose validation fails, the success
path still prints nothing at all — the validation failure is not reported
and no validation log is retrieved (the code never queries
`GL_VALIDATE_STATUS` or the program info log after `glValidateProgram`);
only the non-fatality half of the claim holds. -/
theorem c6_counterexample :
    envValidateFail.validateOk = false ∧
    (CreateShaders envValidateFail "v" "f" initGL).1 = 1 ∧
    (CreateShaders envValidateFail "v" "f" initGL).2.output = [] := by
  decide

set_option maxHeartbeats 1600000 in
/-- C6 amended: on a successful link, `CreateShaders` invokes
`glValidateProgram` on the program and returns the program handle; the
validation outcome is never read, so a validation failure is neither
reported nor fatal — the entire result is unchanged when the driver's
validation verdict is replaced by any other. -/
theorem c6_validation_ignored (env : GLEnv) (b : Bool) (v f : String)
    (hlink : env.linkOk (env.vertexCompileOk v) (env.fragmentCompileOk f) = true) :
    (CreateShaders env v f initGL).1 = 1 ∧
    1 ∈ (CreateShaders env v f initGL).2.validated ∧
    CreateShaders { env with validateOk := b } v f initGL =
      CreateShaders env v f initGL := by
  refine ⟨?_, ?_, rfl⟩ <;>
    cases hv : env.vertexCompileOk v <;> cases hf : env.fragmentCompileOk f <;>
      simp_all [CreateShaders, CompileShader, glCreateProgram, glCreateShader,
        glShaderSource, glCompileShader, glDeleteShader, glAttachShader,
        glDeleteProgram, glValidateProgram, compileStatus, shaderInfoLogLength,
        getShaderInfoLog, coutLine, hasAttachedOfKind, linkStatus, initGL,
        GL_TRUE, GL_FALSE, GL_VERTEX_SHADER, GL_FRAGMENT_SHADER, List.lookup]

/-- C6 witness: flipping the validation verdict of `envValidateFail` (which
fails validation) changes nothing about the returned, validated program. -/
theorem c6_validation_ignored_witness :
    (CreateShaders envValidateFail "v" "f" initGL).1 = 1 ∧
    1 ∈ (CreateShaders envValidateFail "v" "f" initGL).2.validated ∧
    CreateShaders { envValidateFail with validateOk := true } "v" "f" initGL =
      CreateShaders envValidateFail "v" "f" initGL :=
  c6_validation_ignored envValidateFail true "v" "f" (by decide)
